import Mathlib

/-!
# Cutefish launcher: window state, dock margins and single-instance start-up

A shallow embedding of `src/launcher.cpp` (class `Launcher`) and `src/main.cpp`
(function `main`).  The C++ object becomes a record of its member variables and of the
window properties it reads back (`isVisible()`, `geometry()`); every slot becomes a
function from state to state; everything the code asks of the outside world (the dock
proxy, the primary screen, the session bus, the command-line parser) is an explicit
argument.  Emitted Qt signals are appended to a log kept in the state.
-/

namespace Cutefish

/-! ## Qt value types -/

/-- Integer rectangle, the `QRect` of Qt, by position and size. -/
structure QRect where
  x : Int
  y : Int
  width : Int
  height : Int
deriving DecidableEq, Repr

/-- The default-constructed `QRect()`: width and height are both 0. -/
def QRect.null : QRect := ⟨0, 0, 0, 0⟩

/-- Decimal conversion `QString::toInt()`: optional sign and digits, surrounding blanks
ignored; 0 when the text is not a number or does not fit a 32-bit `int`. -/
def QString.toInt (s : String) : Int :=
  let t := s.trim
  let parsed : Option Int :=
    if t.startsWith "+" then (t.drop 1).toNat?.map Int.ofNat else t.toInt?
  match parsed with
  | some n => if -2147483648 ≤ n ∧ n ≤ 2147483647 then n else 0
  | none => 0

/-- Lower-casing `QString::toLower()`, character by character. -/
def QString.toLower (s : String) : String := ⟨s.data.map Char.toLower⟩

/-- The payloads a `QVariant` carries in this program: nothing (an invalid variant, as
returned by a failed property read), a boolean, an `int`, a string or a rectangle. -/
inductive QVariant where
  | invalid
  | bool (b : Bool)
  | int (n : Int)
  | string (s : String)
  | rect (r : QRect)
deriving DecidableEq, Repr

/-- Conversion `QVariant::toRect()`: the rectangle held, else the null rectangle. -/
def QVariant.toRect : QVariant → QRect
  | .rect r => r
  | _ => QRect.null

/-- Conversion `QVariant::toInt()`: 0 for an invalid variant or a rectangle. -/
def QVariant.toInt : QVariant → Int
  | .int n => n
  | .bool b => if b then 1 else 0
  | .string s => QString.toInt s
  | _ => 0

/-- Conversion `QVariant::toBool()`: a string is true unless its lower-case content is
empty, "0" or "false"; an invalid variant or a rectangle is false. -/
def QVariant.toBool : QVariant → Bool
  | .bool b => b
  | .int n => n != 0
  | .string s =>
    !(QString.toLower s == "" || QString.toLower s == "0" || QString.toLower s == "false")
  | _ => false

/-- A D-Bus reply `QDBusMessage`: whether it is an error reply, and its arguments. -/
structure QDBusMessage where
  isError : Bool
  arguments : List QVariant
deriving DecidableEq, Repr

/-! ## The dock proxy -/

/-- What the proxy `m_dockInterface` answers when asked: its validity, whether its last
error is set, and the value each of the two property reads returns. -/
structure DockInterface where
  isValid : Bool
  lastErrorIsValid : Bool
  primaryGeometry : QVariant
  direction : QVariant
deriving DecidableEq, Repr

/-- Property read `m_dockInterface.property(name)`. -/
def DockInterface.property (d : DockInterface) (name : String) : QVariant :=
  if name = "primaryGeometry" then d.primaryGeometry
  else if name = "direction" then d.direction
  else .invalid

/-! ## The launcher window -/

/-- The notification signals of class `Launcher`. -/
inductive Signal where
  | showedChanged
  | marginsChanged
  | screenRectChanged
deriving DecidableEq, Repr

/-- A screen object `QScreen`, by identity and geometry. -/
structure QScreen where
  id : Nat
  geometry : QRect
deriving DecidableEq, Repr

/-- State of a `Launcher` object: the window properties it reads (`visible`, `geometry`,
`screen`), its member variables, the connections it has made and the signals emitted. -/
structure Launcher where
  visible : Bool
  geometry : QRect
  screen : Nat
  m_showed : Bool
  m_leftMargin : Int
  m_rightMargin : Int
  m_bottomMargin : Int
  m_screenRect : QRect
  /-- Screen ids whose geometry signals are connected to `updateSize`, one entry per
  `connect` call. -/
  screenConnections : List Nat
  /-- Number of dock signals connected to `updateMargins`. -/
  dockConnections : Nat
  /-- Whether a service watcher for the dock name going away is installed. -/
  dockWatcher : Bool
  emitted : List Signal
deriving DecidableEq, Repr

namespace Launcher

/-- Signal emission `emit sig()`. -/
def emit (sig : Signal) (s : Launcher) : Launcher :=
  { s with emitted := s.emitted ++ [sig] }

/-- Window call `setVisible(v)`. -/
def setVisible (v : Bool) (s : Launcher) : Launcher :=
  { s with visible := v }

/-- Window call `hide()`, which is `setVisible(false)`. -/
def hide (s : Launcher) : Launcher := setVisible false s

/-- Window call `setGeometry(r)`. -/
def setGeometry (r : QRect) (s : Launcher) : Launcher :=
  { s with geometry := r }

/-- Window query `isVisible()`. -/
def isVisible (s : Launcher) : Bool := s.visible

/-- Accessor `Launcher::leftMargin`. -/
def leftMargin (s : Launcher) : Int := s.m_leftMargin

/-- Accessor `Launcher::rightMargin`. -/
def rightMargin (s : Launcher) : Int := s.m_rightMargin

/-- Accessor `Launcher::bottomMargin`. -/
def bottomMargin (s : Launcher) : Int := s.m_bottomMargin

/-- Accessor `Launcher::showed`. -/
def showed (s : Launcher) : Bool := s.m_showed

/-- Accessor `Launcher::screenRect`. -/
def screenRect (s : Launcher) : QRect := s.m_screenRect

/-- Slot `Launcher::showWindow`: set the flag, notify, then make the window visible. -/
def showWindow (s : Launcher) : Launcher :=
  setVisible true (emit .showedChanged { s with m_showed := true })

/-- Slot `Launcher::hideWindow`: make the window invisible, clear the flag, notify. -/
def hideWindow (s : Launcher) : Launcher :=
  emit .showedChanged { setVisible false s with m_showed := false }

/-- Slot `Launcher::toggle`. -/
def toggle (s : Launcher) : Launcher :=
  if s.isVisible then hideWindow s else showWindow s

/-- Slot `Launcher::updateMargins`: read the two dock properties, zero the three
margins, set the one selected by the direction, notify. -/
def updateMargins (dock : DockInterface) (s : Launcher) : Launcher :=
  let dockGeometry := (dock.property "primaryGeometry").toRect
  let dockDirection := (dock.property "direction").toInt
  let s0 := { s with m_leftMargin := 0, m_rightMargin := 0, m_bottomMargin := 0 }
  let s1 :=
    if dockDirection = 0 then { s0 with m_leftMargin := dockGeometry.width }
    else if dockDirection = 1 then { s0 with m_bottomMargin := dockGeometry.height }
    else if dockDirection = 2 then { s0 with m_rightMargin := dockGeometry.width }
    else s0
  emit .marginsChanged s1

/-- Slot `Launcher::updateSize`, given the primary screen's current geometry. -/
def updateSize (primaryGeometry : QRect) (s : Launcher) : Launcher :=
  if s.m_screenRect ≠ primaryGeometry then
    emit .screenRectChanged
      (setGeometry primaryGeometry { s with m_screenRect := primaryGeometry })
  else s

/-- Slot `Launcher::onGeometryChanged`, given the primary screen.  The leading
`disconnect(screen())` removes connections from the window's own signals to the screen
object; the window makes none, so the recorded connections stay as they are. -/
def onGeometryChanged (primary : QScreen) (s : Launcher) : Launcher :=
  let s1 := { s with screen := primary.id }
  let s2 := updateSize primary.geometry s1
  { s2 with screenConnections := s2.screenConnections ++ [s2.screen, s2.screen] }

/-- Slot `Launcher::onActiveChanged`, given what `isActive()` returns. -/
def onActiveChanged (isActive : Bool) (s : Launcher) : Launcher :=
  if !isActive then hide s else s

/-- What the constructor finds around it: the primary screen, the geometry a fresh
window has, and the dock proxy. -/
structure Env where
  primaryScreen : QScreen
  initialGeometry : QRect
  dock : DockInterface
deriving DecidableEq, Repr

/-- The member initialisers of the constructor on a fresh, hidden window. -/
def init (env : Env) : Launcher :=
  { visible := false
    geometry := env.initialGeometry
    screen := env.primaryScreen.id
    m_showed := false
    m_leftMargin := 0
    m_rightMargin := 0
    m_bottomMargin := 0
    m_screenRect := QRect.null
    screenConnections := []
    dockConnections := 0
    dockWatcher := false
    emitted := [] }

/-- Constructor `Launcher::Launcher(firstShow, w)`: geometry refresh, initial
visibility, then either a first margin computation with the dock signals connected
(dock proxy valid and without error) or a watcher on the dock name. -/
def new (firstShow : Bool) (env : Env) : Launcher :=
  let s1 := onGeometryChanged env.primaryScreen (init env)
  let s2 := setVisible firstShow s1
  if env.dock.isValid && !env.dock.lastErrorIsValid then
    { updateMargins env.dock s2 with dockConnections := 2 }
  else
    { s2 with dockWatcher := true }

/-- The calls and notifications that drive the visibility state after construction. -/
inductive Event where
  | showWindow
  | hideWindow
  | toggle
  | focusLoss
deriving DecidableEq, Repr

/-- One event: the three slots, and `onActiveChanged` run while the window is not
active. -/
def step (s : Launcher) : Event → Launcher
  | .showWindow => showWindow s
  | .hideWindow => hideWindow s
  | .toggle => toggle s
  | .focusLoss => onActiveChanged false s

/-- A sequence of events, in order. -/
def run (s : Launcher) (es : List Event) : Launcher := es.foldl step s

/-- The session bus as `isPinedDock` meets it: whether a freshly built dock proxy is
valid, and the reply the dock gives to a call of a method with arguments. -/
structure DockBus where
  ifaceValid : Bool
  call : String → List QVariant → QDBusMessage

/-- Outcome of `isPinedDock`: the value returned, `none` when the code takes `first()`
of an empty argument list (which `QList` does not define), and the remote calls made. -/
structure PinnedOutcome where
  ret : Option Bool
  calls : List (String × List QVariant)
deriving DecidableEq, Repr

/-- Method `Launcher::isPinedDock(desktop)`: build a proxy; return false when it is
invalid; otherwise call `pinned` and convert the first argument of the reply. -/
def isPinedDock (bus : DockBus) (desktop : String) : PinnedOutcome :=
  if !bus.ifaceValid then
    { ret := some false, calls := [] }
  else
    let reply := bus.call "pinned" [.string desktop]
    { ret := reply.arguments.head?.map QVariant.toBool
      calls := [("pinned", [.string desktop])] }

end Launcher

/-! ## Process start-up -/

/-- Bus name `DBUS_NAME` of `main.cpp`. -/
def DBUS_NAME : String := "com.cutefish.Launcher"

/-- Object path `DBUS_PATH` of `main.cpp`. -/
def DBUS_PATH : String := "/Launcher"

/-- Interface name `DBUS_INTERFACE` of `main.cpp`. -/
def DBUS_INTERFACE : String := "com.cutefish.Launcher"

/-- The outward steps `main` takes, in the order it takes them. -/
inductive MainAction where
  | registerService (name : String)
  | createInterface (service path interface : String)
  | call (method : String) (args : List QVariant)
  | installTranslator
  | constructLauncher (firstShow : Bool)
  | registerObject (path interface : String)
  | exec
deriving DecidableEq, Repr

/-- What the outside world answers to `main`: the result of `parser.process` (`none`
when the parser rejects the command line and ends the process itself, else whether
`--show` is set), the result of claiming the bus name, the reply to the forwarded
`toggle`, the translation file checks, the result of registering the object, and the
value the event loop returns. -/
structure MainEnv where
  parse : Option Bool
  registerServiceOk : Bool
  toggleReply : QDBusMessage
  qmFileExists : Bool
  translatorLoads : Bool
  registerObjectOk : Bool
  execStatus : Int
deriving DecidableEq, Repr

/-- A finished run of `main`: the steps taken and the exit status. -/
structure MainResult where
  actions : List MainAction
  status : Int
deriving DecidableEq, Repr

/-- Function `main` from the command-line parse onwards. -/
def main (env : MainEnv) : MainResult :=
  match env.parse with
  | none => { actions := [], status := 1 }
  | some showSet =>
    if !env.registerServiceOk then
      let _reply := env.toggleReply
      { actions := [.registerService DBUS_NAME,
                    .createInterface DBUS_NAME DBUS_PATH DBUS_INTERFACE,
                    .call "toggle" []]
        status := -1 }
    else
      let translate : List MainAction :=
        if env.qmFileExists && env.translatorLoads then [.installTranslator] else []
      let firstShow := showSet
      let start : List MainAction :=
        [.registerService DBUS_NAME] ++ translate ++
          [.constructLauncher firstShow, .registerObject DBUS_PATH DBUS_INTERFACE]
      if !env.registerObjectOk then
        { actions := start, status := -1 }
      else
        { actions := start ++ [.exec], status := env.execStatus }

/-- Whether a step of `main` is a remote method call. -/
def MainAction.isCall : MainAction → Bool
  | .call _ _ => true
  | _ => false

/-- Exactly one of three integers is non-zero. -/
def ExactlyOneNonZero (l r b : Int) : Prop :=
  (l ≠ 0 ∧ r = 0 ∧ b = 0) ∨ (l = 0 ∧ r ≠ 0 ∧ b = 0) ∨ (l = 0 ∧ r = 0 ∧ b ≠ 0)

instance (l r b : Int) : Decidable (ExactlyOneNonZero l r b) := by
  unfold ExactlyOneNonZero; infer_instance

/-- A sample surrounding for the constructor: a 1920x1080 primary screen and no dock. -/
def sampleEnv : Launcher.Env :=
  { primaryScreen := ⟨0, ⟨0, 0, 1920, 1080⟩⟩
    initialGeometry := ⟨0, 0, 160, 160⟩
    dock := ⟨false, true, .invalid, .invalid⟩ }

/-- The three margins as the accessors report them: left, right, bottom. -/
def Launcher.margins (s : Launcher) : Int × Int × Int :=
  (s.leftMargin, s.rightMargin, s.bottomMargin)

/-! ## Supporting lemmas -/

open Launcher

/-- The margins after `updateMargins`, by cases on the direction read. -/
theorem margins_updateMargins (dock : DockInterface) (s : Launcher) :
    (updateMargins dock s).margins =
      if dock.direction.toInt = 0 then (dock.primaryGeometry.toRect.width, 0, 0)
      else if dock.direction.toInt = 1 then (0, 0, dock.primaryGeometry.toRect.height)
      else if dock.direction.toInt = 2 then (0, dock.primaryGeometry.toRect.width, 0)
      else (0, 0, 0) := by
  simp only [updateMargins, DockInterface.property, margins, leftMargin, rightMargin,
    bottomMargin, emit]
  split_ifs <;> simp_all

/-- A second `updateSize` at the same geometry changes nothing. -/
theorem updateSize_idem (g : QRect) (s : Launcher) :
    updateSize g (updateSize g s) = updateSize g s := by
  by_cases h : s.m_screenRect = g
  · simp [updateSize, h]
  · simp [updateSize, h, emit, setGeometry]

/-- Any positive number of `updateSize` calls at one geometry equals a single call. -/
theorem updateSize_iterate (g : QRect) (s : Launcher) (n : Nat) :
    (updateSize g)^[n + 1] s = updateSize g s := by
  induction n with
  | zero => rfl
  | succ k ih => rw [Function.iterate_succ_apply', ih, updateSize_idem]

/-- After any single event a visible window has its `showed` flag set. -/
theorem step_visible_showed (s : Launcher) (e : Event) :
    (step s e).isVisible = true → (step s e).showed = true := by
  cases e <;> cases hv : s.visible <;>
    simp [step, showWindow, hideWindow, toggle, onActiveChanged, hide, setVisible, emit,
      isVisible, showed, hv]

/-- A launcher constructed with `firstShow = false` is not visible. -/
theorem new_false_not_visible (env : Env) : (Launcher.new false env).isVisible = false := by
  simp only [Launcher.new, isVisible, setVisible, updateMargins, emit]
  split_ifs <;> rfl

/-- With an invalid proxy `isPinedDock` answers false and makes no remote call. -/
theorem isPinedDock_invalid (bus : DockBus) (desktop : String)
    (h : bus.ifaceValid = false) :
    isPinedDock bus desktop = { ret := some false, calls := [] } := by
  simp [isPinedDock, h]

/-- With a valid proxy and a reply that carries a boolean first, `isPinedDock` answers
that boolean after one `pinned` call. -/
theorem isPinedDock_bool (bus : DockBus) (desktop : String) (b : Bool)
    (rest : List QVariant) (err : Bool) (h : bus.ifaceValid = true)
    (hr : bus.call "pinned" [.string desktop] = ⟨err, .bool b :: rest⟩) :
    isPinedDock bus desktop =
      { ret := some b, calls := [("pinned", [.string desktop])] } := by
  simp [isPinedDock, h, hr, QVariant.toBool]

/-! ## Margins -/

/-- C1: `updateMargins` computes the three margins from the dock snapshot alone: for
every prior state, every dock rectangle and every integer direction `d` the margins
(left, right, bottom) afterwards are `(w, 0, 0)` for `d = 0`, `(0, 0, h)` for `d = 1`,
`(0, w, 0)` for `d = 2` and `(0, 0, 0)` otherwise; direction 1 with geometry
`(0, 1040, 1920, 40)` gives left 0, right 0, bottom 40. -/
theorem updateMargins_from_scratch (s : Launcher) (valid err : Bool) (r : QRect) (d : Int) :
    (updateMargins ⟨valid, err, .rect r, .int d⟩ s).margins =
        (if d = 0 then (r.width, 0, 0)
         else if d = 1 then (0, 0, r.height)
         else if d = 2 then (0, r.width, 0)
         else (0, 0, 0)) ∧
      (updateMargins ⟨valid, err, .rect ⟨0, 1040, 1920, 40⟩, .int 1⟩ s).leftMargin = 0 ∧
      (updateMargins ⟨valid, err, .rect ⟨0, 1040, 1920, 40⟩, .int 1⟩ s).rightMargin = 0 ∧
      (updateMargins ⟨valid, err, .rect ⟨0, 1040, 1920, 40⟩, .int 1⟩ s).bottomMargin = 40 := by
  refine ⟨?_, ?_, ?_, ?_⟩
  · rw [margins_updateMargins]; rfl
  all_goals
    simp [updateMargins, DockInterface.property, QVariant.toInt, QVariant.toRect, emit,
      leftMargin, rightMargin, bottomMargin]

/-- C7, as stated, fails: a dock on the left (direction 0) whose rectangle has width 0
leaves all three margins zero, so it is not the case that exactly one is non-zero. -/
theorem updateMargins_zero_width_all_zero :
    ¬ ExactlyOneNonZero
        (updateMargins ⟨true, false, .rect ⟨0, 0, 0, 1080⟩, .int 0⟩
          (Launcher.new false sampleEnv)).leftMargin
        (updateMargins ⟨true, false, .rect ⟨0, 0, 0, 1080⟩, .int 0⟩
          (Launcher.new false sampleEnv)).rightMargin
        (updateMargins ⟨true, false, .rect ⟨0, 0, 0, 1080⟩, .int 0⟩
          (Launcher.new false sampleEnv)).bottomMargin := by
  decide

/-- C7, amended: for a direction in {0, 1, 2} the margin on the dock side (left for 0,
bottom for 1, right for 2) equals the corresponding dock dimension and the other two are
zero, so exactly one margin is non-zero whenever that dimension is non-zero; for any
other direction all three margins are zero. -/
theorem updateMargins_one_side (s : Launcher) (valid err : Bool) (r : QRect) (d : Int) :
    (d = 0 →
        (updateMargins ⟨valid, err, .rect r, .int d⟩ s).margins = (r.width, 0, 0) ∧
        (r.width ≠ 0 → ExactlyOneNonZero
          (updateMargins ⟨valid, err, .rect r, .int d⟩ s).leftMargin
          (updateMargins ⟨valid, err, .rect r, .int d⟩ s).rightMargin
          (updateMargins ⟨valid, err, .rect r, .int d⟩ s).bottomMargin)) ∧
    (d = 1 →
        (updateMargins ⟨valid, err, .rect r, .int d⟩ s).margins = (0, 0, r.height) ∧
        (r.height ≠ 0 → ExactlyOneNonZero
          (updateMargins ⟨valid, err, .rect r, .int d⟩ s).leftMargin
          (updateMargins ⟨valid, err, .rect r, .int d⟩ s).rightMargin
          (updateMargins ⟨valid, err, .rect r, .int d⟩ s).bottomMargin)) ∧
    (d = 2 →
        (updateMargins ⟨valid, err, .rect r, .int d⟩ s).margins = (0, r.width, 0) ∧
        (r.width ≠ 0 → ExactlyOneNonZero
          (updateMargins ⟨valid, err, .rect r, .int d⟩ s).leftMargin
          (updateMargins ⟨valid, err, .rect r, .int d⟩ s).rightMargin
          (updateMargins ⟨valid, err, .rect r, .int d⟩ s).bottomMargin)) ∧
    (d ≠ 0 → d ≠ 1 → d ≠ 2 →
        (updateMargins ⟨valid, err, .rect r, .int d⟩ s).margins = (0, 0, 0)) := by
  have key := margins_updateMargins ⟨valid, err, .rect r, .int d⟩ s
  simp only [QVariant.toInt, QVariant.toRect] at key
  refine ⟨?_, ?_, ?_, ?_⟩
  · intro h
    subst h
    simp only [if_true] at key
    refine ⟨key, fun hw => ?_⟩
    simp only [margins, Prod.mk.injEq] at key
    exact Or.inl ⟨by rw [key.1]; exact hw, key.2.1, key.2.2⟩
  · intro h
    subst h
    simp only [one_ne_zero, if_false, if_true] at key
    refine ⟨key, fun hw => ?_⟩
    simp only [margins, Prod.mk.injEq] at key
    exact Or.inr (Or.inr ⟨key.1, key.2.1, by rw [key.2.2]; exact hw⟩)
  · intro h
    subst h
    have h20 : ¬ ((2 : Int) = 0) := by decide
    have h21 : ¬ ((2 : Int) = 1) := by decide
    simp only [h20, h21, if_false, if_true] at key
    refine ⟨key, fun hw => ?_⟩
    simp only [margins, Prod.mk.injEq] at key
    exact Or.inr (Or.inl ⟨key.1, by rw [key.2.1]; exact hw, key.2.2⟩)
  · intro h0 h1 h2
    simpa only [h0, h1, h2, if_false] using key

/-- C7, amended, at concrete docks: a 64-wide dock on the left, a 40-high dock at the
bottom, a 64-wide dock on the right, and the unknown direction 7. -/
theorem updateMargins_one_side_witness :
    ((updateMargins ⟨true, false, .rect ⟨0, 0, 64, 1080⟩, .int 0⟩
        (Launcher.new false sampleEnv)).margins = (64, 0, 0) ∧
      ExactlyOneNonZero
        (updateMargins ⟨true, false, .rect ⟨0, 0, 64, 1080⟩, .int 0⟩
          (Launcher.new false sampleEnv)).leftMargin
        (updateMargins ⟨true, false, .rect ⟨0, 0, 64, 1080⟩, .int 0⟩
          (Launcher.new false sampleEnv)).rightMargin
        (updateMargins ⟨true, false, .rect ⟨0, 0, 64, 1080⟩, .int 0⟩
          (Launcher.new false sampleEnv)).bottomMargin) ∧
    ((updateMargins ⟨true, false, .rect ⟨0, 1040, 1920, 40⟩, .int 1⟩
        (Launcher.new false sampleEnv)).margins = (0, 0, 40) ∧
      ExactlyOneNonZero
        (updateMargins ⟨true, false, .rect ⟨0, 1040, 1920, 40⟩, .int 1⟩
          (Launcher.new false sampleEnv)).leftMargin
        (updateMargins ⟨true, false, .rect ⟨0, 1040, 1920, 40⟩, .int 1⟩
          (Launcher.new false sampleEnv)).rightMargin
        (updateMargins ⟨true, false, .rect ⟨0, 1040, 1920, 40⟩, .int 1⟩
          (Launcher.new false sampleEnv)).bottomMargin) ∧
    ((updateMargins ⟨true, false, .rect ⟨1856, 0, 64, 1080⟩, .int 2⟩
        (Launcher.new false sampleEnv)).margins = (0, 64, 0) ∧
      ExactlyOneNonZero
        (updateMargins ⟨true, false, .rect ⟨1856, 0, 64, 1080⟩, .int 2⟩
          (Launcher.new false sampleEnv)).leftMargin
        (updateMargins ⟨true, false, .rect ⟨1856, 0, 64, 1080⟩, .int 2⟩
          (Launcher.new false sampleEnv)).rightMargin
        (updateMargins ⟨true, false, .rect ⟨1856, 0, 64, 1080⟩, .int 2⟩
          (Launcher.new false sampleEnv)).bottomMargin) ∧
    (updateMargins ⟨true, false, .rect ⟨0, 0, 64, 1080⟩, .int 7⟩
        (Launcher.new false sampleEnv)).margins = (0, 0, 0) :=
  ⟨And.imp_right (fun h => h (by decide))
      ((updateMargins_one_side (Launcher.new false sampleEnv) true false
        ⟨0, 0, 64, 1080⟩ 0).1 rfl),
   And.imp_right (fun h => h (by decide))
      ((updateMargins_one_side (Launcher.new false sampleEnv) true false
        ⟨0, 1040, 1920, 40⟩ 1).2.1 rfl),
   And.imp_right (fun h => h (by decide))
      ((updateMargins_one_side (Launcher.new false sampleEnv) true false
        ⟨1856, 0, 64, 1080⟩ 2).2.2.1 rfl),
   (updateMargins_one_side (Launcher.new false sampleEnv) true false
        ⟨0, 0, 64, 1080⟩ 7).2.2.2 (by decide) (by decide) (by decide)⟩

/-- C2: `toggle` is its own inverse on visibility: from every window state, visible or
hidden, two consecutive `toggle` calls leave `isVisible()` as it was before the first. -/
theorem toggle_toggle_isVisible (s : Launcher) :
    (toggle (toggle s)).isVisible = s.isVisible := by
  cases hv : s.visible <;>
    simp [toggle, showWindow, hideWindow, setVisible, emit, isVisible, hv]

/-- C3: from every state, `showWindow` then `hideWindow` ends with `showed()` false and
the window hidden, `hideWindow` then `showWindow` ends with `showed()` true and the
window visible, and each of the calls appends exactly one `showedChanged` to the
signals emitted. -/
theorem show_hide_sequences (s : Launcher) :
    ((hideWindow (showWindow s)).showed = false ∧
      (hideWindow (showWindow s)).isVisible = false ∧
      (showWindow s).emitted = s.emitted ++ [Signal.showedChanged] ∧
      (hideWindow (showWindow s)).emitted =
        (showWindow s).emitted ++ [Signal.showedChanged]) ∧
    ((showWindow (hideWindow s)).showed = true ∧
      (showWindow (hideWindow s)).isVisible = true ∧
      (hideWindow s).emitted = s.emitted ++ [Signal.showedChanged] ∧
      (showWindow (hideWindow s)).emitted =
        (hideWindow s).emitted ++ [Signal.showedChanged]) := by
  simp [showWindow, hideWindow, setVisible, emit, isVisible, showed]

/-- C9: when `onActiveChanged` runs while the window is not active, the window becomes
hidden, `showed()` keeps its value and nothing is emitted (only the visibility
changes); when it runs while the window is active the state is unchanged; so after
`showWindow`, focus loss gives `showed()` true with the window hidden. -/
theorem onActiveChanged_focus_loss (s : Launcher) :
    (onActiveChanged false s).isVisible = false ∧
    (onActiveChanged false s).showed = s.showed ∧
    (onActiveChanged false s).emitted = s.emitted ∧
    onActiveChanged false s = { s with visible := false } ∧
    onActiveChanged true s = s ∧
    (onActiveChanged false (showWindow s)).showed = true ∧
    (onActiveChanged false (showWindow s)).isVisible = false := by
  simp [onActiveChanged, hide, showWindow, setVisible, emit, isVisible, showed]

/-- C10, as stated, fails: the launcher constructed with `firstShow = true`, before any
event, is visible while `showed()` is false. -/
theorem new_firstShow_visible_not_showed :
    (run (Launcher.new true sampleEnv) []).isVisible = true ∧
    (run (Launcher.new true sampleEnv) []).showed = false := by
  decide

/-- C10, amended: in every state reached from construction by a sequence of
`showWindow`, `hideWindow`, `toggle` and focus-loss events, a visible window has
`showed()` true, provided `firstShow` is false or at least one event has happened. -/
theorem visible_implies_showed (firstShow : Bool) (env : Env) (es : List Event)
    (h : firstShow = false ∨ es ≠ [])
    (hv : (run (Launcher.new firstShow env) es).isVisible = true) :
    (run (Launcher.new firstShow env) es).showed = true := by
  rcases List.eq_nil_or_concat es with rfl | ⟨l, e, rfl⟩
  · rcases h with h | h
    · subst h
      have hn := new_false_not_visible env
      simp only [run, List.foldl_nil] at hv
      rw [hn] at hv
      exact absurd hv (by decide)
    · exact absurd rfl h
  · simp only [run, List.concat_eq_append, List.foldl_append, List.foldl_cons,
      List.foldl_nil] at hv ⊢
    exact step_visible_showed _ e hv

/-- C10, amended, at a concrete run: constructed with `firstShow = true`, then a focus
loss and a `toggle`; the window is visible and `showed()` is true. -/
theorem visible_implies_showed_witness :
    (run (Launcher.new true sampleEnv) [Event.focusLoss, Event.toggle]).isVisible = true ∧
    (run (Launcher.new true sampleEnv) [Event.focusLoss, Event.toggle]).showed = true :=
  ⟨by decide,
   visible_implies_showed true sampleEnv [Event.focusLoss, Event.toggle]
     (Or.inr (by decide)) (by decide)⟩

/-! ## Screen geometry -/

/-- C6: `updateSize` with cached rect `c` and primary geometry `g`: if `c ≠ g` the cache
becomes `g`, the window geometry becomes `g` and exactly one `screenRectChanged` is
appended; if `c = g` nothing changes and nothing is emitted; hence after a change of
geometry any positive number of `updateSize` calls at the new geometry emits
`screenRectChanged` exactly once in total. -/
theorem updateSize_refresh (s : Launcher) (g : QRect) :
    (s.screenRect ≠ g →
        (updateSize g s).screenRect = g ∧
        (updateSize g s).geometry = g ∧
        (updateSize g s).emitted = s.emitted ++ [Signal.screenRectChanged]) ∧
    (s.screenRect = g → updateSize g s = s) ∧
    (s.screenRect ≠ g → ∀ n : Nat,
        ((updateSize g)^[n + 1] s).emitted = s.emitted ++ [Signal.screenRectChanged] ∧
        ((updateSize g)^[n + 1] s).emitted.count Signal.screenRectChanged =
          s.emitted.count Signal.screenRectChanged + 1) := by
  simp only [screenRect]
  refine ⟨fun h => ?_, fun h => ?_, fun h n => ?_⟩
  · simp [updateSize, h, emit, setGeometry]
  · simp [updateSize, h]
  · rw [updateSize_iterate]
    simp [updateSize, h, emit, setGeometry]

/-- C6 at the scenario of the specification: the window caches 1920x1080 and the
primary screen changes to 2560x1440; one call updates cache and window and emits once,
five calls in a row still emit once in total, and a call at the cached geometry is a
no-op. -/
theorem updateSize_refresh_witness :
    ((updateSize ⟨0, 0, 2560, 1440⟩ (Launcher.new true sampleEnv)).screenRect
        = ⟨0, 0, 2560, 1440⟩ ∧
      (updateSize ⟨0, 0, 2560, 1440⟩ (Launcher.new true sampleEnv)).geometry
        = ⟨0, 0, 2560, 1440⟩ ∧
      (updateSize ⟨0, 0, 2560, 1440⟩ (Launcher.new true sampleEnv)).emitted
        = (Launcher.new true sampleEnv).emitted ++ [Signal.screenRectChanged]) ∧
    updateSize ⟨0, 0, 1920, 1080⟩ (Launcher.new true sampleEnv)
      = Launcher.new true sampleEnv ∧
    (((updateSize ⟨0, 0, 2560, 1440⟩)^[4 + 1] (Launcher.new true sampleEnv)).emitted
        = (Launcher.new true sampleEnv).emitted ++ [Signal.screenRectChanged] ∧
      ((updateSize ⟨0, 0, 2560, 1440⟩)^[4 + 1]
          (Launcher.new true sampleEnv)).emitted.count Signal.screenRectChanged
        = (Launcher.new true sampleEnv).emitted.count Signal.screenRectChanged + 1) :=
  ⟨(updateSize_refresh (Launcher.new true sampleEnv) ⟨0, 0, 2560, 1440⟩).1 (by decide),
   (updateSize_refresh (Launcher.new true sampleEnv) ⟨0, 0, 1920, 1080⟩).2.1 (by decide),
   (updateSize_refresh (Launcher.new true sampleEnv) ⟨0, 0, 2560, 1440⟩).2.2 (by decide) 4⟩

/-! ## Single instance -/

/-- C4: when the command line is accepted (with or without `--show`) and claiming the
bus name `com.cutefish.Launcher` fails, `main` claims the name, builds a proxy for
`com.cutefish.Launcher` at `/Launcher`, makes exactly one remote call, `toggle` with no
arguments, and returns -1; the result is the same whatever the reply to that call, and
no launcher is constructed and no object registered. -/
theorem main_losing_instance (env : MainEnv) (showSet : Bool)
    (hparse : env.parse = some showSet) (hreg : env.registerServiceOk = false) :
    main env =
        { actions := [.registerService "com.cutefish.Launcher",
                      .createInterface "com.cutefish.Launcher" "/Launcher"
                        "com.cutefish.Launcher",
                      .call "toggle" []]
          status := -1 } ∧
      (main env).actions.filter MainAction.isCall = [.call "toggle" []] ∧
      (∀ reply : QDBusMessage, main { env with toggleReply := reply } = main env) ∧
      (∀ firstShow : Bool, MainAction.constructLauncher firstShow ∉ (main env).actions) ∧
      (∀ path interface : String,
        MainAction.registerObject path interface ∉ (main env).actions) ∧
      (main env).status = -1 ∧ (main env).status ≠ 0 := by
  have hmain : main env =
      { actions := [.registerService "com.cutefish.Launcher",
                    .createInterface "com.cutefish.Launcher" "/Launcher"
                      "com.cutefish.Launcher",
                    .call "toggle" []]
        status := -1 } := by
    simp [main, hparse, hreg, DBUS_NAME, DBUS_PATH, DBUS_INTERFACE]
  refine ⟨hmain, ?_, ?_, ?_, ?_, ?_, ?_⟩
  · rw [hmain]; rfl
  · intro reply
    rw [hmain]
    simp [main, hparse, hreg, DBUS_NAME, DBUS_PATH, DBUS_INTERFACE]
  · intro firstShow
    rw [hmain]; simp
  · intro path interface
    rw [hmain]; simp
  · rw [hmain]
  · rw [hmain]; decide

/-- C4 at a concrete start: `--show` given, the name already owned, the forwarded call
answered by an error reply. -/
theorem main_losing_instance_witness :
    main ⟨some true, false, ⟨true, [.string "no reply"]⟩, true, true, true, 0⟩ =
        { actions := [.registerService "com.cutefish.Launcher",
                      .createInterface "com.cutefish.Launcher" "/Launcher"
                        "com.cutefish.Launcher",
                      .call "toggle" []]
          status := -1 } ∧
      (main ⟨some true, false, ⟨true, [.string "no reply"]⟩, true, true, true, 0⟩).status
        ≠ 0 :=
  let h := main_losing_instance
    ⟨some true, false, ⟨true, [.string "no reply"]⟩, true, true, true, 0⟩ true rfl rfl
  ⟨h.1, h.2.2.2.2.2.2⟩

/-! ## Pinned query -/

end Cutefish
